import Mathlib

/-!
# Verification of the Vulkan backend lifecycle manager

Shallow embedding of `src/application/vk_helpers/vulkanbackend.cpp`
(`app::VulkanBackend` and `app::ContextCreateInfo`).  C++ `uint32_t`
values are modelled as `Nat`; where the source relies on unsigned
wrap-around (the `-1` sentinel stored in a `uint32_t`) the wrapped value
`2^32 - 1` is used explicitly, and unsigned comparisons such as
`graphicsIdx >= 0` are translated literally (they hold trivially on an
unsigned type, exactly as in the source).
-/

namespace VkBackend

/-- `(uint32_t)(-1)`, the sentinel written by the source into
`graphicsIdx`, `presentIdx` and `memoryTypeIdx` before the search loops. -/
def UINT32_MAX : Nat := 4294967295

/-- One entry of `device.getQueueFamilyProperties()`, together with the
per-family answer of `device.getSurfaceSupportKHR(j, m_surface)` (a
query the source makes for the same family index `j`).  The three
`Bool`s model the `eGraphics`, `eCompute` and `eTransfer` bits of
`queueFlags`. -/
structure QueueFamilyProperties where
  queueCount : Nat
  graphics : Bool
  compute : Bool
  transfer : Bool
  supportsPresent : Bool
deriving DecidableEq, Repr

/-- Default value used with `List.getD` when stating index properties. -/
def qfDefault : QueueFamilyProperties :=
  { queueCount := 0, graphics := false, compute := false,
    transfer := false, supportsPresent := false }

/-- A physical device as observed by `pickPhysicalDevice`: the queue
family table, the sizes of `getSurfaceFormatsKHR` / `getSurfacePresentModesKHR`,
the names from `enumerateDeviceExtensionProperties`, and the two
framebuffer sample-count limit bitmasks from `getProperties().limits`. -/
structure PhysicalDevice where
  queueFamilies : List QueueFamilyProperties
  surfaceFormatCount : Nat
  presentModeCount : Nat
  extensions : List String
  framebufferColorSampleCounts : Nat
  framebufferDepthSampleCounts : Nat
deriving DecidableEq, Repr

/-- `app::ContextCreateInfo` (vulkanbackend.cpp, bottom section): three
name lists with their explicit counters and the validation toggle. -/
structure ContextCreateInfo where
  numDeviceExtensions : Nat
  deviceExtensions : List String
  numValidationLayers : Nat
  validationLayers : List String
  numInstanceExtensions : Nat
  instanceExtensions : List String
  enableValidationLayers : Bool
deriving DecidableEq, Repr

/-- `ContextCreateInfo::ContextCreateInfo()`: zero-initialises the three
lists/counters, then, when `enableValidationLayers` is set, pushes
`"VK_LAYER_KHRONOS_validation"` onto `validationLayers` and the debug-utils
extension onto `instanceExtensions`, bumping both counters.  The toggle
itself is a member whose initial value comes from the (not provided)
header, so it is a parameter here. -/
def ContextCreateInfo.init (enableValidationLayers : Bool) : ContextCreateInfo :=
  let base : ContextCreateInfo :=
    { numDeviceExtensions := 0, deviceExtensions := []
      numValidationLayers := 0, validationLayers := []
      numInstanceExtensions := 0, instanceExtensions := []
      enableValidationLayers := enableValidationLayers }
  if enableValidationLayers then
    { base with
      numValidationLayers := base.numValidationLayers + 1
      validationLayers := base.validationLayers ++ ["VK_LAYER_KHRONOS_validation"]
      numInstanceExtensions := base.numInstanceExtensions + 1
      instanceExtensions := base.instanceExtensions ++ ["VK_EXT_debug_utils"] }
  else base

/-- `ContextCreateInfo::addDeviceExtension`: `numDeviceExtensions++;
deviceExtensions.emplace_back(name);`. -/
def ContextCreateInfo.addDeviceExtension (info : ContextCreateInfo) (name : String) :
    ContextCreateInfo :=
  { info with
    numDeviceExtensions := info.numDeviceExtensions + 1
    deviceExtensions := info.deviceExtensions ++ [name] }

/-- `ContextCreateInfo::addInstanceExtension`: `numInstanceExtensions++;
instanceExtensions.emplace_back(name);`. -/
def ContextCreateInfo.addInstanceExtension (info : ContextCreateInfo) (name : String) :
    ContextCreateInfo :=
  { info with
    numInstanceExtensions := info.numInstanceExtensions + 1
    instanceExtensions := info.instanceExtensions ++ [name] }

/-- `ContextCreateInfo::addValidationLayer`: the source increments
`numValidationLayers` but then executes `deviceExtensions.emplace_back(name);`
— it pushes the layer name onto the device-extension list, leaving
`validationLayers` untouched.  Embedded exactly as written. -/
def ContextCreateInfo.addValidationLayer (info : ContextCreateInfo) (name : String) :
    ContextCreateInfo :=
  { info with
    numValidationLayers := info.numValidationLayers + 1
    deviceExtensions := info.deviceExtensions ++ [name] }

/-- `VulkanBackend::checkDeviceExtensionSupport`: builds the set of
required names, erases every available one, succeeds when the set is
empty — i.e. every required device extension occurs among the device's
extension properties. -/
def checkDeviceExtensionSupport (info : ContextCreateInfo)
    (extensionProperties : List String) : Bool :=
  info.deviceExtensions.all (fun required => extensionProperties.contains required)

/-- The condition of the graphics-queue search loop body
(vulkanbackend.cpp lines 176–188): skip families with `queueCount == 0`,
accept the family when `queueFlags & (eGraphics | eCompute | eTransfer)`
is non-zero — a non-empty intersection with the three bits, not all of
them. -/
def qualifiesGraphicsQueue (q : QueueFamilyProperties) : Bool :=
  q.queueCount != 0 && (q.graphics || q.compute || q.transfer)

/-- The condition of the present-queue search loop body (lines 191–202):
`queueCount != 0` and `getSurfaceSupportKHR(j, m_surface)`. -/
def qualifiesPresentQueue (q : QueueFamilyProperties) : Bool :=
  q.queueCount != 0 && q.supportsPresent

/-- The `for (j = 0; ...; ++j) { ...; break; }` search: first index whose
family passes `pred`, else the untouched `-1` sentinel (`UINT32_MAX`). -/
def findQueueIdxAux (pred : QueueFamilyProperties → Bool) :
    Nat → List QueueFamilyProperties → Nat
  | _, [] => UINT32_MAX
  | j, q :: rest => if pred q then j else findQueueIdxAux pred (j + 1) rest

/-- `graphicsIdx` after the first search loop of `pickPhysicalDevice`. -/
def findGraphicsIdx (qfs : List QueueFamilyProperties) : Nat :=
  findQueueIdxAux qualifiesGraphicsQueue 0 qfs

/-- `presentIdx` after the second search loop of `pickPhysicalDevice`. -/
def findPresentIdx (qfs : List QueueFamilyProperties) : Nat :=
  findQueueIdxAux qualifiesPresentQueue 0 qfs

/-- `rawCounts = (std::min)(framebufferColorSampleCounts,
framebufferDepthSampleCounts)` — the numeric minimum of the two flag
words, exactly as the source computes it (not a bitwise intersection). -/
def rawSampleCounts (d : PhysicalDevice) : Nat :=
  min d.framebufferColorSampleCounts d.framebufferDepthSampleCounts

/-- The sample-count selection cascade (lines 217–222): six independent
`if` statements without `else` or `break`, each overwriting
`m_sampleCount` when its bit is present in `counts`; `prev` is the value
`m_sampleCount` held on entry (its member initialiser lives in the
header, which is not part of the sources).  Flag bits use the Vulkan
encoding e2 = 2, e4 = 4, …, e64 = 64. -/
def pickSampleCount (prev : Nat) (counts : Nat) : Nat :=
  let s := prev
  let s := if counts &&& 64 != 0 then 64 else s
  let s := if counts &&& 32 != 0 then 32 else s
  let s := if counts &&& 16 != 0 then 16 else s
  let s := if counts &&& 8 != 0 then 8 else s
  let s := if counts &&& 4 != 0 then 4 else s
  let s := if counts &&& 2 != 0 then 2 else s
  s

/-- The values `pickPhysicalDevice` writes into the backend when it
accepts a device. -/
structure PickResult where
  device : PhysicalDevice
  graphicsQueueIdx : Nat
  presentQueueIdx : Nat
  vsync : Bool
  sampleCount : Nat
deriving DecidableEq, Repr

/-- The `for (auto device : devices)` loop of `pickPhysicalDevice`
(lines 163–226).  The three `continue` guards are the surface-format,
present-mode and device-extension checks; then the two queue searches
run, and the acceptance test is the source's
`graphicsIdx >= 0 && presentIdx >= 0` — a comparison of *unsigned*
values, translated literally (on `Nat` as on `uint32_t` it is always
true). -/
def pickLoop (info : ContextCreateInfo) (prevSampleCount : Nat) :
    List PhysicalDevice → Option PickResult
  | [] => none
  | device :: rest =>
    if device.surfaceFormatCount == 0 then pickLoop info prevSampleCount rest
    else if device.presentModeCount == 0 then pickLoop info prevSampleCount rest
    else if !checkDeviceExtensionSupport info device.extensions then
      pickLoop info prevSampleCount rest
    else
      let graphicsIdx := findGraphicsIdx device.queueFamilies
      let presentIdx := findPresentIdx device.queueFamilies
      if graphicsIdx ≥ 0 ∧ presentIdx ≥ 0 then
        some { device := device
               graphicsQueueIdx := graphicsIdx
               presentQueueIdx := presentIdx
               vsync := false
               sampleCount := pickSampleCount prevSampleCount (rawSampleCounts device) }
      else pickLoop info prevSampleCount rest

/-- `VulkanBackend::pickPhysicalDevice`: throws when the enumeration is
empty; otherwise runs the device loop and, when it falls through without
accepting (so `m_physicalDevice` is still null), throws
"failed to find a suitable GPU!". -/
def pickPhysicalDevice (info : ContextCreateInfo) (prevSampleCount : Nat)
    (devices : List PhysicalDevice) : Except String PickResult :=
  if devices.length == 0 then
    .error "failed to find GPUs with Vulkan support!"
  else
    match pickLoop info prevSampleCount devices with
    | some r => .ok r
    | none => .error "failed to find a suitable GPU!"

/-- A device exposing a surface format and a present mode but *no* queue
families at all — so neither a graphics/compute/transfer family nor a
present family exists on it. -/
def noQueueDevice : PhysicalDevice :=
  { queueFamilies := []
    surfaceFormatCount := 1
    presentModeCount := 1
    extensions := []
    framebufferColorSampleCounts := 1
    framebufferDepthSampleCounts := 1 }

/-- An empty configuration (no validation, no required extensions). -/
def emptyInfo : ContextCreateInfo := ContextCreateInfo.init false

end VkBackend

namespace VkBackend

/-- **C1.** Physical-device selection does *not* enforce the queue-family
qualification predicates.  `graphicsIdx` and `presentIdx` are `uint32_t`
initialised to `-1` (= `UINT32_MAX`), and the acceptance test
`graphicsIdx >= 0 && presentIdx >= 0` is trivially true on an unsigned
type; so a device exposing a surface format and a present mode (with no
required extensions configured) is accepted even though it has *no*
queue family usable for graphics/compute/transfer and none that can
present — its sentinel `UINT32_MAX` indices are stored as the queue
family indices instead of bring-up failing with "no suitable device". -/
theorem pickPhysicalDevice_accepts_device_without_queue_families :
    findGraphicsIdx noQueueDevice.queueFamilies = UINT32_MAX ∧
    findPresentIdx noQueueDevice.queueFamilies = UINT32_MAX ∧
    pickPhysicalDevice emptyInfo 1 [noQueueDevice] =
      .ok { device := noQueueDevice
            graphicsQueueIdx := UINT32_MAX
            presentQueueIdx := UINT32_MAX
            vsync := false
            sampleCount := 1 } := by
  refine ⟨rfl, rfl, ?_⟩
  rfl

/-- A device whose combined color/depth framebuffer sample-count mask is
`{1,2,4,8}` (= `0xF`) on both limits. -/
def msaaDevice : PhysicalDevice :=
  { queueFamilies :=
      [{ queueCount := 1, graphics := true, compute := true,
         transfer := true, supportsPresent := true }]
    surfaceFormatCount := 1
    presentModeCount := 1
    extensions := []
    framebufferColorSampleCounts := 15
    framebufferDepthSampleCounts := 15 }

/-- **C2.** Sample-count selection picks the *lowest* supported count ≥ 2,
not the highest: the six `if`s run top-down without `else`/`break`, so
each smaller supported bit overwrites the larger one.  For a combined
supported set `{1,2,4,8}` (mask 15) the cascade ends at 2 — never 8 —
whatever value `m_sampleCount` held before; and a full device selection
on such a device records sample count 2. -/
theorem pickSampleCount_1248_selects_2_not_8 :
    (∀ prev : Nat, pickSampleCount prev 15 = 2) ∧
    pickPhysicalDevice emptyInfo 1 [msaaDevice] =
      .ok { device := msaaDevice
            graphicsQueueIdx := 0
            presentQueueIdx := 0
            vsync := false
            sampleCount := 2 } := by
  refine ⟨fun prev => rfl, ?_⟩
  rfl

/-- The search loop returns `base + j` when `j` is the first position of
the remaining list whose family passes `pred`. -/
theorem findQueueIdxAux_first (pred : QueueFamilyProperties → Bool) :
    ∀ (qfs : List QueueFamilyProperties) (base j : Nat),
      j < qfs.length →
      pred (qfs.getD j qfDefault) = true →
      (∀ k, k < j → pred (qfs.getD k qfDefault) = false) →
      findQueueIdxAux pred base qfs = base + j := by
  intro qfs
  induction qfs with
  | nil => intro base j hj _ _; exact absurd hj (by simp)
  | cons q rest ih =>
    intro base j hj hq hmin
    match j with
    | 0 =>
      have hq0 : pred q = true := by simpa [List.getD] using hq
      simp [findQueueIdxAux, hq0]
    | j' + 1 =>
      have hq0 : pred q = false := by
        have := hmin 0 (Nat.succ_pos j')
        simpa [List.getD] using this
      have step : findQueueIdxAux pred base (q :: rest) =
          findQueueIdxAux pred (base + 1) rest := by
        simp [findQueueIdxAux, hq0]
      rw [step]
      have hj' : j' < rest.length := by
        simpa [Nat.succ_lt_succ_iff] using hj
      have hq' : pred (rest.getD j' qfDefault) = true := by
        simpa [List.getD] using hq
      have hmin' : ∀ k, k < j' → pred (rest.getD k qfDefault) = false := by
        intro k hk
        have := hmin (k + 1) (Nat.succ_lt_succ hk)
        simpa [List.getD] using this
      rw [ih (base + 1) j' hj' hq' hmin']
      omega

/-- **C10.** During device examination, `graphicsIdx` becomes the first
(lowest) queue-family index with a non-zero queue count whose flags meet
`eGraphics | eCompute | eTransfer` with a non-empty intersection — the
test is `queueFlags & (graphics|compute|transfer)`, i.e. *any* of the
three bits, so a transfer-only family qualifies and the `break` ends the
search there. -/
theorem findGraphicsIdx_first_lowest_qualifying
    (qfs : List QueueFamilyProperties) (j : Nat)
    (hj : j < qfs.length)
    (hq : qualifiesGraphicsQueue (qfs.getD j qfDefault) = true)
    (hmin : ∀ k, k < j → qualifiesGraphicsQueue (qfs.getD k qfDefault) = false) :
    findGraphicsIdx qfs = j ∧
    (∀ q : QueueFamilyProperties, q.queueCount ≠ 0 → q.transfer = true →
      qualifiesGraphicsQueue q = true) := by
  constructor
  · have := findQueueIdxAux_first qualifiesGraphicsQueue qfs 0 j hj hq hmin
    simpa [findGraphicsIdx] using this
  · intro q hcount htr
    simp [qualifiesGraphicsQueue, htr, hcount]

/-- A queue family offering only transfer capability. -/
def transferOnlyFamily : QueueFamilyProperties :=
  { queueCount := 1, graphics := false, compute := false,
    transfer := true, supportsPresent := false }

/-- A queue family with no queues at all (skipped by both searches). -/
def emptyFamily : QueueFamilyProperties :=
  { queueCount := 0, graphics := true, compute := true,
    transfer := true, supportsPresent := true }

/-- Witness for C10: in `[emptyFamily, transferOnlyFamily]` the
transfer-only family at index 1 is the first qualifying one and is
chosen. -/
theorem findGraphicsIdx_first_lowest_qualifying_witness :
    findGraphicsIdx [emptyFamily, transferOnlyFamily] = 1 ∧
    (∀ q : QueueFamilyProperties, q.queueCount ≠ 0 → q.transfer = true →
      qualifiesGraphicsQueue q = true) :=
  findGraphicsIdx_first_lowest_qualifying [emptyFamily, transferOnlyFamily] 1
    (by decide) (by decide)
    (by intro k hk; interval_cases k; decide)

/-- **C9.** The builder calls do *not* all target their matching list:
`addInstanceExtension` and `addDeviceExtension` append to the instance-
and device-extension lists with the matching counter, but
`addValidationLayer` increments `numValidationLayers` while appending
the name to the *device-extension* list, leaving `validationLayers`
unchanged — the layer never reaches the list read at bring-up. -/
theorem addValidationLayer_misappends_to_deviceExtensions :
    ((emptyInfo.addValidationLayer "VK_LAYER_KHRONOS_validation").validationLayers
        = [] ∧
      (emptyInfo.addValidationLayer "VK_LAYER_KHRONOS_validation").numValidationLayers
        = 1 ∧
      (emptyInfo.addValidationLayer "VK_LAYER_KHRONOS_validation").deviceExtensions
        = ["VK_LAYER_KHRONOS_validation"]) ∧
    ((emptyInfo.addInstanceExtension "VK_KHR_surface").instanceExtensions
        = ["VK_KHR_surface"] ∧
      (emptyInfo.addInstanceExtension "VK_KHR_surface").numInstanceExtensions = 1) ∧
    ((emptyInfo.addDeviceExtension "VK_KHR_swapchain").deviceExtensions
        = ["VK_KHR_swapchain"] ∧
      (emptyInfo.addDeviceExtension "VK_KHR_swapchain").numDeviceExtensions = 1) := by
  exact ⟨⟨rfl, rfl, rfl⟩, ⟨rfl, rfl⟩, ⟨rfl, rfl⟩⟩

/-! ## Resource bring-up and frame loop

State-passing embedding of the resource / synchronization part of
`VulkanBackend`.  GPU object handles are modelled as `Nat` identifiers
drawn from a `next` counter (so newly created objects are distinct from
everything created before); each operation additionally returns the
sequence of Vulkan calls it issues, as a `List Ev`. -/

/-- `vk::Extent2D`. -/
structure Extent2D where
  width : Nat
  height : Nat
deriving DecidableEq, Repr

/-- One entry of `m_framebuffers`: the created handle and the
`FramebufferCreateInfo` contents the source fills in (color attachment
`m_swapchain.getImageView(i)`, depth attachment `m_depthView`, current
extent). -/
structure Framebuffer where
  fbId : Nat
  colorView : Nat
  depthAttachment : Option Nat
  width : Nat
  height : Nat
deriving DecidableEq, Repr

/-- Default used with `List.getD` in statements. -/
def fbDefault : Framebuffer :=
  { fbId := 0, colorView := 0, depthAttachment := none, width := 0, height := 0 }

/-- The Vulkan calls issued by the modelled member functions, in program
order.  `destroyImageView none` etc. model a destroy call on a null
handle, which Vulkan defines to be a no-op. -/
inductive Ev
  | waitDeviceIdle
  | waitQueueIdle
  | swapchainUpdate (w h : Nat)
  | notifyResize (w h : Nat)
  | destroyImageView (id : Option Nat)
  | destroyImage (id : Option Nat)
  | freeMemory (id : Option Nat)
  | createImage (id : Nat)
  | allocMemory (id : Nat)
  | bindImageMemory (id : Nat)
  | oneShotLayoutTransition (id : Nat)
  | createImageView (id : Nat)
  | destroyFramebuffer (id : Nat)
  | createFramebuffer (id : Nat)
  | renderPassCreate
  | resetFences (i : Nat)
  | queueSubmit (i : Nat)
  | presentImage (i : Nat)
deriving DecidableEq, Repr

/-- The mutable members of `VulkanBackend` the modelled functions touch,
together with the device-reported data they read.  `swapchainViews`
models the external swapchain collaborator's image-view ring
(`getImageCount()` is its length, `getImageView(i)` its `i`-th entry,
`getActiveImageIndex()` the `activeImageIndex` field);
`depthMemoryTypeBits` is `getImageMemoryRequirements(...).memoryTypeBits`
for the depth image and `memoryTypes` the `propertyFlags` words of
`getMemoryProperties().memoryTypes` (bit 0 = `eDeviceLocal`). -/
structure Backend where
  next : Nat
  size : Extent2D
  vsync : Bool
  swapchainViews : List Nat
  swapchainExtent : Extent2D
  activeImageIndex : Nat
  depthImage : Option Nat
  depthMemory : Option Nat
  depthView : Option Nat
  framebuffers : List Framebuffer
  fences : List Bool
  pendingSubmits : List Nat
  memoryTypes : List Nat
  depthMemoryTypeBits : Nat
deriving DecidableEq, Repr

/-- `m_swapchain.getImageCount()`. -/
def Backend.imageCount (st : Backend) : Nat := st.swapchainViews.length

/-- The memory-type search of `createDepthBuffer` (lines 478–490):
`for (i = 0; i < memoryTypeCount; i++)` accepting the first `i` with
`(memReqs.memoryTypeBits & (1 << i))` non-zero and
`(propertyFlags & eDeviceLocal) == eDeviceLocal`; `memoryTypeIdx` keeps
its `-1` (= `UINT32_MAX`) sentinel when none matches. -/
def findMemoryTypeIdxAux (bits : Nat) : Nat → List Nat → Nat
  | _, [] => UINT32_MAX
  | i, flags :: rest =>
    if bits &&& (1 <<< i) != 0 && flags &&& 1 == 1 then i
    else findMemoryTypeIdxAux bits (i + 1) rest

/-- `memoryTypeIdx` after the search loop of `createDepthBuffer`. -/
def findMemoryTypeIdx (bits : Nat) (memoryTypes : List Nat) : Nat :=
  findMemoryTypeIdxAux bits 0 memoryTypes

/-- `VulkanBackend::createDepthBuffer` (lines 449–559): unconditionally
destroys the previous view/image/memory (no-ops on null handles),
creates the new depth image, searches for the first compatible
device-local memory type (throwing when the sentinel survives),
allocates and binds memory, runs the one-shot layout-transition command
buffer (ending in `m_graphicsQueue.waitIdle()`), and creates the view.
Freed handles are modelled as absent rather than as dangling values. -/
def createDepthBuffer (st : Backend) : Except String (Backend × List Ev) :=
  let destroyTr := [Ev.destroyImageView st.depthView, Ev.destroyImage st.depthImage,
                    Ev.freeMemory st.depthMemory]
  let imgId := st.next
  let st1 := { st with next := st.next + 1, depthImage := some imgId,
                       depthMemory := none, depthView := none }
  let memoryTypeIdx := findMemoryTypeIdx st.depthMemoryTypeBits st.memoryTypes
  if memoryTypeIdx = UINT32_MAX then
    .error "failed to find suitable memory type!"
  else
    let memId := st1.next
    let st2 := { st1 with next := st1.next + 1, depthMemory := some memId }
    let viewId := st2.next
    let st3 := { st2 with next := st2.next + 1, depthView := some viewId }
    .ok (st3, destroyTr ++
      [Ev.createImage imgId, Ev.allocMemory memId, Ev.bindImageMemory imgId,
       Ev.oneShotLayoutTransition imgId, Ev.waitQueueIdle, Ev.createImageView viewId])

/-- `VulkanBackend::createFrameBuffers` (lines 565–601): destroys every
framebuffer currently held, resizes the vector to
`m_swapchain.getImageCount()`, and creates one framebuffer per swapchain
image binding `{ getImageView(i), m_depthView }` at the current extent. -/
def createFrameBuffers (st : Backend) : Backend × List Ev :=
  let destroyTr := st.framebuffers.map (fun fb => Ev.destroyFramebuffer fb.fbId)
  let n := st.swapchainViews.length
  let newFbs := (List.range n).map (fun i =>
    { fbId := st.next + i
      colorView := st.swapchainViews.getD i 0
      depthAttachment := st.depthView
      width := st.size.width
      height := st.size.height })
  ({ st with next := st.next + n, framebuffers := newFbs },
   destroyTr ++ newFbs.map (fun fb => Ev.createFramebuffer fb.fbId))

/-- `VulkanBackend::createSyncObjects` (lines 607–619): resizes
`m_fences` to the image count and creates every fence with
`eSignaled`. -/
def createSyncObjects (st : Backend) : Backend :=
  { st with fences := List.replicate st.swapchainViews.length true }

/-- `VulkanBackend::onWindowResize` (lines 921–943): returns immediately
when either dimension is zero; otherwise stores the new size (the
ImGui/camera notifications are external collaborators), waits for the
device and the graphics queue to go idle, updates the swapchain to the
new extent, calls the `onResize` hook, then recreates the depth buffer
and the framebuffers.  `createRenderPass` is not called. -/
def onWindowResize (st : Backend) (width height : Nat) :
    Except String (Backend × List Ev) :=
  if width == 0 || height == 0 then .ok (st, [])
  else
    let st1 := { st with size := ⟨width, height⟩, swapchainExtent := ⟨width, height⟩ }
    match createDepthBuffer st1 with
    | .error e => .error e
    | .ok (st2, trDepth) =>
      let (st3, trFb) := createFrameBuffers st2
      .ok (st3, [Ev.waitDeviceIdle, Ev.waitQueueIdle,
                 Ev.swapchainUpdate width height, Ev.notifyResize width height]
                ++ trDepth ++ trFb)

/-- The environment completing a GPU submission: a submission was
registered with fence index `i` by `vkQueueSubmit`, and its completion
signals exactly that fence (Vulkan fence semantics; nothing else in the
backend sets a fence to signaled). -/
def gpuCompleteSubmission (st : Backend) (i : Nat) : Backend :=
  if st.pendingSubmits.contains i then
    { st with fences := st.fences.set i true,
              pendingSubmits := st.pendingSubmits.erase i }
  else st

/-- `VulkanBackend::submitFrame` (lines 644–673): reads the active image
index, resets that image's fence, submits the command buffer for that
index to the graphics queue passing the same fence, then presents. -/
def submitFrame (st : Backend) : Backend × List Ev :=
  let imageIndex := st.activeImageIndex
  let st1 := { st with fences := st.fences.set imageIndex false }
  let st2 := { st1 with pendingSubmits := st1.pendingSubmits ++ [imageIndex] }
  (st2, [Ev.resetFences imageIndex, Ev.queueSubmit imageIndex,
         Ev.presentImage imageIndex])

/-- Vulkan result codes the acquire / fence-wait paths distinguish. -/
inductive VkResult
  | success
  | suboptimalKHR
  | errorOutOfDateKHR
  | timeout
  | notReady
  | errorDeviceLost
deriving DecidableEq, Repr

/-- The wait loop of `prepareFrame` (line 638):
`while (waitForFences(...) == eTimeout) {}` — `n` counts the polls that
time out before the fence is observed signaled; every timeout just
repeats the wait, and the loop ends only with the fence signaled. -/
def fenceWaitLoop : Nat → Bool
  | 0 => true
  | n + 1 => fenceWaitLoop n

/-- `VulkanBackend::prepareFrame` (lines 624–639): an out-of-date or
suboptimal acquire triggers `onWindowResize(m_size.width, m_size.height)`;
any other non-success result throws; then the per-image fence wait loop
runs (`n` timing-out polls).  The result carries the state, whether the
resize-rebuild path ran, and the final fence-wait outcome. -/
def prepareFrame (st : Backend) (acquireResult : VkResult) (n : Nat) :
    Except String (Backend × Bool × Bool) :=
  if acquireResult = VkResult.errorOutOfDateKHR ∨
      acquireResult = VkResult.suboptimalKHR then
    match onWindowResize st st.size.width st.size.height with
    | .error e => .error e
    | .ok (st1, _) => .ok (st1, true, fenceWaitLoop n)
  else if acquireResult ≠ VkResult.success then
    .error "failed to acquire image from swapchain!"
  else
    .ok (st, false, fenceWaitLoop n)

/-- Indexing a mapped range. -/
theorem getD_map_range {α : Type} (f : Nat → α) (n i : Nat) (d : α) (hi : i < n) :
    ((List.range n).map f).getD i d = f i := by
  simp [List.getD, List.getElem?_map, List.getElem?_range, hi]

/-- A concrete backend state used to witness the theorems below: three
swapchain images, a live depth triple `5/6/7`, three stale framebuffers,
all fences signaled, active image index 1, and a memory-type table whose
first device-local compatible entry is index 1. -/
def demoBackend : Backend :=
  { next := 20
    size := ⟨800, 600⟩
    vsync := false
    swapchainViews := [10, 11, 12]
    swapchainExtent := ⟨800, 600⟩
    activeImageIndex := 1
    depthImage := some 5
    depthMemory := some 6
    depthView := some 7
    framebuffers :=
      [{ fbId := 8, colorView := 10, depthAttachment := some 7, width := 800, height := 600 },
       { fbId := 9, colorView := 11, depthAttachment := some 7, width := 800, height := 600 },
       { fbId := 15, colorView := 12, depthAttachment := some 7, width := 800, height := 600 }]
    fences := [true, true, true]
    pendingSubmits := []
    memoryTypes := [2, 3]
    depthMemoryTypeBits := 3 }

/-- `demoBackend` with no device-local memory type at all. -/
def noDeviceLocalBackend : Backend :=
  { demoBackend with memoryTypes := [2, 2] }

/-- **C5.** After any `createFrameBuffers` call, the framebuffer set has
exactly one entry per current swapchain image; a destroy call is issued
for every previously held framebuffer (and none of the new handles is an
old one — they come from the fresh-id counter); and the framebuffer at
index `i` binds image `i`'s color view together with the shared depth
view. -/
theorem createFrameBuffers_matches_swapchain (st : Backend) :
    (createFrameBuffers st).1.framebuffers.length = st.imageCount ∧
    (∀ fb ∈ st.framebuffers,
      Ev.destroyFramebuffer fb.fbId ∈ (createFrameBuffers st).2) ∧
    (∀ fb ∈ (createFrameBuffers st).1.framebuffers, st.next ≤ fb.fbId) ∧
    (∀ i, i < st.imageCount →
      ((createFrameBuffers st).1.framebuffers.getD i fbDefault).colorView
          = st.swapchainViews.getD i 0 ∧
      ((createFrameBuffers st).1.framebuffers.getD i fbDefault).depthAttachment
          = st.depthView) := by
  refine ⟨?_, ?_, ?_, ?_⟩
  · simp [createFrameBuffers, Backend.imageCount]
  · intro fb hfb
    exact List.mem_append_left _ (List.mem_map_of_mem _ hfb)
  · intro fb hfb
    simp only [createFrameBuffers, List.mem_map] at hfb
    obtain ⟨i, hi, rfl⟩ := hfb
    exact Nat.le_add_right _ _
  · intro i hi
    have hx := getD_map_range
      (fun i => ({ fbId := st.next + i
                   colorView := st.swapchainViews.getD i 0
                   depthAttachment := st.depthView
                   width := st.size.width
                   height := st.size.height } : Framebuffer))
      st.swapchainViews.length i fbDefault hi
    constructor
    · simpa [createFrameBuffers] using congrArg Framebuffer.colorView hx
    · simpa [createFrameBuffers] using congrArg Framebuffer.depthAttachment hx

/-- Witness for C5 on `demoBackend`: three new framebuffers, destruction
of stale framebuffer 8, index 0 bound to color view 10 and the shared
depth view. -/
theorem createFrameBuffers_matches_swapchain_witness :
    (createFrameBuffers demoBackend).1.framebuffers.length = demoBackend.imageCount ∧
    Ev.destroyFramebuffer 8 ∈ (createFrameBuffers demoBackend).2 ∧
    ((createFrameBuffers demoBackend).1.framebuffers.getD 0 fbDefault).colorView = 10 ∧
    ((createFrameBuffers demoBackend).1.framebuffers.getD 0 fbDefault).depthAttachment
      = some 7 := by
  have h := createFrameBuffers_matches_swapchain demoBackend
  refine ⟨h.1, ?_, (h.2.2.2 0 (by decide)).1, (h.2.2.2 0 (by decide)).2⟩
  exact h.2.1
    { fbId := 8, colorView := 10, depthAttachment := some 7, width := 800, height := 600 }
    (by decide)

/-- Evaluation of `createDepthBuffer` when a compatible device-local
memory type exists: destroys of the prior triple, then the new
image/memory/view from the fresh-id counter. -/
theorem createDepthBuffer_eq (st : Backend)
    (hmem : findMemoryTypeIdx st.depthMemoryTypeBits st.memoryTypes ≠ UINT32_MAX) :
    createDepthBuffer st = .ok
      ({ st with
          next := st.next + 1 + 1 + 1,
          depthImage := some st.next,
          depthMemory := some (st.next + 1),
          depthView := some (st.next + 1 + 1) },
       [Ev.destroyImageView st.depthView, Ev.destroyImage st.depthImage,
        Ev.freeMemory st.depthMemory,
        Ev.createImage st.next, Ev.allocMemory (st.next + 1),
        Ev.bindImageMemory st.next, Ev.oneShotLayoutTransition st.next,
        Ev.waitQueueIdle, Ev.createImageView (st.next + 1 + 1)]) := by
  simp only [createDepthBuffer]
  rw [if_neg hmem]
  rfl

/-- First-match property of the memory-type search loop. -/
theorem findMemoryTypeIdxAux_first (bits : Nat) :
    ∀ (types : List Nat) (base j : Nat),
      j < types.length →
      (bits &&& (1 <<< (base + j)) != 0 && (types.getD j 0) &&& 1 == 1) = true →
      (∀ k, k < j →
        (bits &&& (1 <<< (base + k)) != 0 && (types.getD k 0) &&& 1 == 1) = false) →
      findMemoryTypeIdxAux bits base types = base + j := by
  intro types
  induction types with
  | nil => intro base j hj _ _; exact absurd hj (by simp)
  | cons flags rest ih =>
    intro base j hj hq hmin
    match j with
    | 0 =>
      have hq0 : (bits &&& (1 <<< base) != 0 && flags &&& 1 == 1) = true := by
        simpa [List.getD] using hq
      have hb : base + 0 = base := by omega
      rw [hb]
      simp only [findMemoryTypeIdxAux]
      rw [hq0]
      simp
    | j' + 1 =>
      have hq0 : (bits &&& (1 <<< base) != 0 && flags &&& 1 == 1) = false := by
        have := hmin 0 (Nat.succ_pos j')
        simpa [List.getD] using this
      have step : findMemoryTypeIdxAux bits base (flags :: rest) =
          findMemoryTypeIdxAux bits (base + 1) rest := by
        simp only [findMemoryTypeIdxAux]
        rw [hq0]
        simp
      rw [step]
      have hj' : j' < rest.length := by
        simpa [Nat.succ_lt_succ_iff] using hj
      have hq' : (bits &&& (1 <<< (base + 1 + j')) != 0 &&
          (rest.getD j' 0) &&& 1 == 1) = true := by
        have harith : base + 1 + j' = base + (j' + 1) := by omega
        rw [harith]
        simpa [List.getD] using hq
      have hmin' : ∀ k, k < j' →
          (bits &&& (1 <<< (base + 1 + k)) != 0 &&
            (rest.getD k 0) &&& 1 == 1) = false := by
        intro k hk
        have harith : base + 1 + k = base + (k + 1) := by omega
        rw [harith]
        have := hmin (k + 1) (Nat.succ_lt_succ hk)
        simpa [List.getD] using this
      rw [ih (base + 1) j' hj' hq' hmin']
      omega

/-- **C8.** `createDepthBuffer` always begins by destroying the previous
depth view, image and memory (destroy calls on null handles when absent,
a no-op); a second consecutive call succeeds again, producing a valid
depth view both times, and its opening destroy calls tear down exactly
the three objects the first call created — no leak. The memory type used
is the first index both present in the image's memory-type bitmask and
device-local, and when no such type exists the call fails with the
"suitable memory type" error. -/
theorem createDepthBuffer_idempotent_first_fit (st : Backend)
    (hmem : findMemoryTypeIdx st.depthMemoryTypeBits st.memoryTypes ≠ UINT32_MAX) :
    (∃ st1 tr1,
      createDepthBuffer st = .ok (st1, tr1) ∧
      tr1.take 3 = [Ev.destroyImageView st.depthView, Ev.destroyImage st.depthImage,
                    Ev.freeMemory st.depthMemory] ∧
      st1.depthImage = some st.next ∧
      st1.depthMemory = some (st.next + 1) ∧
      st1.depthView = some (st.next + 1 + 1) ∧
      ∃ st2 tr2,
        createDepthBuffer st1 = .ok (st2, tr2) ∧
        tr2.take 3 = [Ev.destroyImageView (some (st.next + 1 + 1)),
                      Ev.destroyImage (some st.next),
                      Ev.freeMemory (some (st.next + 1))] ∧
        ∃ v2, st2.depthView = some v2) ∧
    (∀ st' : Backend,
      findMemoryTypeIdx st'.depthMemoryTypeBits st'.memoryTypes = UINT32_MAX →
      createDepthBuffer st' = .error "failed to find suitable memory type!") ∧
    (∀ (bits : Nat) (types : List Nat) (j : Nat),
      j < types.length →
      (bits &&& (1 <<< j) != 0 && (types.getD j 0) &&& 1 == 1) = true →
      (∀ k, k < j →
        (bits &&& (1 <<< k) != 0 && (types.getD k 0) &&& 1 == 1) = false) →
      findMemoryTypeIdx bits types = j) := by
  refine ⟨?_, ?_, ?_⟩
  · have h1 := createDepthBuffer_eq st hmem
    have hmem1 : findMemoryTypeIdx
        ({ st with
            next := st.next + 1 + 1 + 1,
            depthImage := some st.next,
            depthMemory := some (st.next + 1),
            depthView := some (st.next + 1 + 1) } : Backend).depthMemoryTypeBits
        ({ st with
            next := st.next + 1 + 1 + 1,
            depthImage := some st.next,
            depthMemory := some (st.next + 1),
            depthView := some (st.next + 1 + 1) } : Backend).memoryTypes
        ≠ UINT32_MAX := hmem
    have h2 := createDepthBuffer_eq _ hmem1
    exact ⟨_, _, h1, rfl, rfl, rfl, rfl, _, _, h2, rfl, _, rfl⟩
  · intro st' hnone
    simp only [createDepthBuffer]
    rw [if_pos hnone]
  · intro bits types j hj hq hmin
    have := findMemoryTypeIdxAux_first bits types 0 j hj
      (by simpa using hq) (by intro k hk; simpa using hmin k hk)
    simpa [findMemoryTypeIdx] using this

/-- Witness for C8 on `demoBackend`: both consecutive calls succeed with
the stated traces; the variant with no device-local memory type fails
with the memory-type error; the search picks index 1 of `[2, 3]` for
bitmask 3. -/
theorem createDepthBuffer_idempotent_first_fit_witness :
    (∃ st1 tr1,
      createDepthBuffer demoBackend = .ok (st1, tr1) ∧
      tr1.take 3 = [Ev.destroyImageView (some 7), Ev.destroyImage (some 5),
                    Ev.freeMemory (some 6)] ∧
      st1.depthImage = some 20 ∧
      st1.depthMemory = some 21 ∧
      st1.depthView = some 22 ∧
      ∃ st2 tr2,
        createDepthBuffer st1 = .ok (st2, tr2) ∧
        tr2.take 3 = [Ev.destroyImageView (some 22), Ev.destroyImage (some 20),
                      Ev.freeMemory (some 21)] ∧
        ∃ v2, st2.depthView = some v2) ∧
    createDepthBuffer noDeviceLocalBackend
      = .error "failed to find suitable memory type!" ∧
    findMemoryTypeIdx 3 [2, 3] = 1 := by
  have h := createDepthBuffer_idempotent_first_fit demoBackend (by decide)
  refine ⟨h.1, h.2.1 noDeviceLocalBackend (by decide), ?_⟩
  refine h.2.2 3 [2, 3] 1 (by decide) (by decide) ?_
  intro k hk
  interval_cases k
  decide

/-- The fence wait loop never fails: each timed-out poll just repeats the
wait, and the loop only exits with the fence signaled. -/
theorem fenceWaitLoop_signaled : ∀ n, fenceWaitLoop n = true
  | 0 => rfl
  | n + 1 => fenceWaitLoop_signaled n

/-- **C6.** After `createSyncObjects` (the last bring-up step) there is
exactly one fence per swapchain image and every fence is signaled;
`submitFrame` for the active image `i` sets fence `i` to unsignaled
first and then submits passing fence `i` (the reset event precedes the
submit event in its call trace, and the submission is registered with
fence `i`), and completing that pending submission on the GPU side is
what returns fence `i` to signaled. -/
theorem fences_signaled_then_submit_resets (st stF : Backend)
    (hi : stF.activeImageIndex < stF.fences.length) :
    ((createSyncObjects st).fences.length = st.imageCount ∧
      ∀ b ∈ (createSyncObjects st).fences, b = true) ∧
    ((submitFrame stF).1.fences.getD stF.activeImageIndex true = false ∧
      (submitFrame stF).2 = [Ev.resetFences stF.activeImageIndex,
                             Ev.queueSubmit stF.activeImageIndex,
                             Ev.presentImage stF.activeImageIndex] ∧
      stF.activeImageIndex ∈ (submitFrame stF).1.pendingSubmits ∧
      (gpuCompleteSubmission (submitFrame stF).1 stF.activeImageIndex).fences.getD
          stF.activeImageIndex false = true) := by
  refine ⟨⟨?_, ?_⟩, ?_, rfl, ?_, ?_⟩
  · simp [createSyncObjects, Backend.imageCount]
  · intro b hb
    simp [createSyncObjects, List.mem_replicate] at hb
    exact hb.2
  · simp [submitFrame, List.getD, List.getElem?_set, hi]
  · simp [submitFrame]
  · simp [gpuCompleteSubmission, submitFrame, List.getD, List.getElem?_set, hi]

/-- Witness for C6 on `demoBackend` (three images, active index 1). -/
theorem fences_signaled_then_submit_resets_witness :
    (createSyncObjects demoBackend).fences.length = demoBackend.imageCount ∧
    (submitFrame demoBackend).1.fences.getD 1 true = false ∧
    (submitFrame demoBackend).2 = [Ev.resetFences 1, Ev.queueSubmit 1,
                                   Ev.presentImage 1] ∧
    (gpuCompleteSubmission (submitFrame demoBackend).1 1).fences.getD 1 false
      = true := by
  have h := fences_signaled_then_submit_resets demoBackend demoBackend (by decide)
  exact ⟨h.1.1, h.2.1, h.2.2.1, h.2.2.2.2⟩

/-- `onWindowResize` always succeeds when a compatible device-local
memory type exists for the depth image. -/
theorem onWindowResize_ok (st : Backend) (w h : Nat)
    (hmem : findMemoryTypeIdx st.depthMemoryTypeBits st.memoryTypes ≠ UINT32_MAX) :
    ∃ st' tr, onWindowResize st w h = .ok (st', tr) := by
  by_cases h0 : (w == 0 || h == 0) = true
  · exact ⟨st, [], by simp only [onWindowResize]; rw [if_pos h0]⟩
  · have hmemR : findMemoryTypeIdx
        ({ st with size := ⟨w, h⟩, swapchainExtent := ⟨w, h⟩ } : Backend).depthMemoryTypeBits
        ({ st with size := ⟨w, h⟩, swapchainExtent := ⟨w, h⟩ } : Backend).memoryTypes
        ≠ UINT32_MAX := hmem
    rcases hcd : createDepthBuffer
        ({ st with size := ⟨w, h⟩, swapchainExtent := ⟨w, h⟩ } : Backend) with e | p
    · have h1 := createDepthBuffer_eq _ hmemR
      rw [hcd] at h1
      exact Except.noConfusion h1
    · obtain ⟨st2, trD⟩ := p
      refine ⟨(createFrameBuffers st2).1,
        [Ev.waitDeviceIdle, Ev.waitQueueIdle,
         Ev.swapchainUpdate w h, Ev.notifyResize w h]
          ++ trD ++ (createFrameBuffers st2).2, ?_⟩
      simp only [onWindowResize]
      rw [if_neg h0, hcd]

/-- **C7.** `prepareFrame` treats an out-of-date or suboptimal acquire as
transient: it runs the resize-rebuild path (`onWindowResize` at the
current size) and raises no acquire error; every other non-success
acquire result raises the "failed to acquire image from swapchain!"
error; and a fence-wait timeout is not an error — the wait is simply
retried until the fence is observed signaled, for any number of
timed-out polls. -/
theorem prepareFrame_transient_conditions (st : Backend) (n : Nat)
    (hmem : findMemoryTypeIdx st.depthMemoryTypeBits st.memoryTypes ≠ UINT32_MAX) :
    (∃ st1, prepareFrame st VkResult.errorOutOfDateKHR n = .ok (st1, true, true)) ∧
    (∃ st1, prepareFrame st VkResult.suboptimalKHR n = .ok (st1, true, true)) ∧
    (∀ r, r ≠ VkResult.success → r ≠ VkResult.errorOutOfDateKHR →
      r ≠ VkResult.suboptimalKHR →
      prepareFrame st r n = .error "failed to acquire image from swapchain!") ∧
    prepareFrame st VkResult.success n = .ok (st, false, true) ∧
    (∀ k, fenceWaitLoop k = true) := by
  obtain ⟨stR, trR, hR⟩ := onWindowResize_ok st st.size.width st.size.height hmem
  refine ⟨⟨stR, ?_⟩, ⟨stR, ?_⟩, ?_, ?_, fenceWaitLoop_signaled⟩
  · simp [prepareFrame, hR, fenceWaitLoop_signaled n]
  · simp [prepareFrame, hR, fenceWaitLoop_signaled n]
  · intro r hr1 hr2 hr3
    cases r
    · exact absurd rfl hr1
    · exact absurd rfl hr3
    · exact absurd rfl hr2
    · simp [prepareFrame]
    · simp [prepareFrame]
    · simp [prepareFrame]
  · simp [prepareFrame, fenceWaitLoop_signaled n]

/-- Witness for C7 on `demoBackend` with five timed-out polls. -/
theorem prepareFrame_transient_conditions_witness :
    (∃ st1, prepareFrame demoBackend VkResult.errorOutOfDateKHR 5
        = .ok (st1, true, true)) ∧
    (∃ st1, prepareFrame demoBackend VkResult.suboptimalKHR 5
        = .ok (st1, true, true)) ∧
    prepareFrame demoBackend VkResult.errorDeviceLost 5
      = .error "failed to acquire image from swapchain!" ∧
    prepareFrame demoBackend VkResult.success 5 = .ok (demoBackend, false, true) ∧
    fenceWaitLoop 1000 = true := by
  have h := prepareFrame_transient_conditions demoBackend 5 (by decide)
  exact ⟨h.1, h.2.1,
    h.2.2.1 VkResult.errorDeviceLost (by decide) (by decide) (by decide),
    h.2.2.2.1, h.2.2.2.2 1000⟩

/-- Neither the depth rebuild nor the framebuffer rebuild issues a
render-pass creation call. -/
theorem renderPassCreate_not_in_rebuild (st : Backend) :
    (∀ st2 trD, createDepthBuffer st = .ok (st2, trD) →
      Ev.renderPassCreate ∉ trD) ∧
    Ev.renderPassCreate ∉ (createFrameBuffers st).2 := by
  constructor
  · intro st2 trD hcd
    by_cases hmem : findMemoryTypeIdx st.depthMemoryTypeBits st.memoryTypes = UINT32_MAX
    · simp only [createDepthBuffer] at hcd
      rw [if_pos hmem] at hcd
      exact Except.noConfusion hcd
    · have h1 := createDepthBuffer_eq st hmem
      rw [hcd] at h1
      obtain ⟨hst, htr⟩ := Prod.mk.injEq .. ▸ (Except.ok.injEq .. ▸ h1)
      subst htr
      simp
  · simp only [createFrameBuffers]
    intro hmem
    rcases List.mem_append.mp hmem with hL | hR
    · obtain ⟨fb, _, hfb⟩ := List.mem_map.mp hL
      exact Ev.noConfusion hfb
    · obtain ⟨fb, _, hfb⟩ := List.mem_map.mp hR
      exact Ev.noConfusion hfb

/-- **C4.** On a resize event with zero width or height the call returns
immediately with the state unchanged and no call issued; otherwise the
call sequence begins with the device-idle and graphics-queue-idle waits
(so both precede every destroy), then the swapchain update to the new
extent, then the notification of the render collaborator, then the
entire depth-buffer rebuild, then the entire framebuffer rebuild — and
no render-pass creation occurs anywhere in the sequence. -/
theorem onWindowResize_order (st : Backend) (w h : Nat)
    (hmem : findMemoryTypeIdx st.depthMemoryTypeBits st.memoryTypes ≠ UINT32_MAX) :
    (w = 0 ∨ h = 0 → onWindowResize st w h = .ok (st, [])) ∧
    (w ≠ 0 → h ≠ 0 →
      ∃ st2 trD st3 trF,
        createDepthBuffer { st with size := ⟨w, h⟩, swapchainExtent := ⟨w, h⟩ }
            = .ok (st2, trD) ∧
        createFrameBuffers st2 = (st3, trF) ∧
        onWindowResize st w h =
          .ok (st3, [Ev.waitDeviceIdle, Ev.waitQueueIdle,
                     Ev.swapchainUpdate w h, Ev.notifyResize w h] ++ trD ++ trF) ∧
        st3.size = ⟨w, h⟩ ∧
        st3.swapchainExtent = ⟨w, h⟩ ∧
        Ev.renderPassCreate ∉
          ([Ev.waitDeviceIdle, Ev.waitQueueIdle,
            Ev.swapchainUpdate w h, Ev.notifyResize w h] ++ trD ++ trF)) := by
  constructor
  · intro h0
    have hb : (w == 0 || h == 0) = true := by
      rcases h0 with h0 | h0 <;> simp [h0]
    simp only [onWindowResize]
    rw [if_pos hb]
  · intro hw hh
    have hb : ¬ ((w == 0 || h == 0) = true) := by simp [hw, hh]
    have hmemR : findMemoryTypeIdx
        ({ st with size := ⟨w, h⟩, swapchainExtent := ⟨w, h⟩ } : Backend).depthMemoryTypeBits
        ({ st with size := ⟨w, h⟩, swapchainExtent := ⟨w, h⟩ } : Backend).memoryTypes
        ≠ UINT32_MAX := hmem
    rcases hcd : createDepthBuffer
        ({ st with size := ⟨w, h⟩, swapchainExtent := ⟨w, h⟩ } : Backend) with e | p
    · have h1 := createDepthBuffer_eq _ hmemR
      rw [hcd] at h1
      exact Except.noConfusion h1
    · obtain ⟨st2, trD⟩ := p
      have hsize : st2.size = (⟨w, h⟩ : Extent2D) ∧
          st2.swapchainExtent = (⟨w, h⟩ : Extent2D) := by
        have h1 := createDepthBuffer_eq _ hmemR
        rw [hcd] at h1
        injection h1 with h1'
        injection h1' with hA hB
        subst hA
        exact ⟨rfl, rfl⟩
      refine ⟨st2, trD, (createFrameBuffers st2).1, (createFrameBuffers st2).2,
        rfl, rfl, ?_, ?_, ?_, ?_⟩
      · simp only [onWindowResize]
        rw [if_neg hb, hcd]
      · simpa [createFrameBuffers] using hsize.1
      · simpa [createFrameBuffers] using hsize.2
      · intro hmemEv
        rcases List.mem_append.mp hmemEv with hL | hR
        · rcases List.mem_append.mp hL with hP | hD
          · simp at hP
          · exact (renderPassCreate_not_in_rebuild _).1 st2 trD hcd hD
        · exact (renderPassCreate_not_in_rebuild st2).2 hR

/-- Witness for C4 on `demoBackend`: a (0, 600) resize is the identity
with no calls; a (1024, 768) resize produces the ordered sequence. -/
theorem onWindowResize_order_witness :
    onWindowResize demoBackend 0 600 = .ok (demoBackend, []) ∧
    (∃ st2 trD st3 trF,
      createDepthBuffer
          { demoBackend with size := ⟨1024, 768⟩, swapchainExtent := ⟨1024, 768⟩ }
          = .ok (st2, trD) ∧
      createFrameBuffers st2 = (st3, trF) ∧
      onWindowResize demoBackend 1024 768 =
        .ok (st3, [Ev.waitDeviceIdle, Ev.waitQueueIdle,
                   Ev.swapchainUpdate 1024 768, Ev.notifyResize 1024 768]
                  ++ trD ++ trF) ∧
      st3.size = ⟨1024, 768⟩ ∧
      st3.swapchainExtent = ⟨1024, 768⟩ ∧
      Ev.renderPassCreate ∉
        ([Ev.waitDeviceIdle, Ev.waitQueueIdle,
          Ev.swapchainUpdate 1024 768, Ev.notifyResize 1024 768]
          ++ trD ++ trF)) := by
  have h := onWindowResize_order demoBackend 1024 768 (by decide)
  have h0 := onWindowResize_order demoBackend 0 600 (by decide)
  exact ⟨h0.1 (Or.inl rfl), h.2 (by decide) (by decide)⟩

/-! ## Bring-up error propagation (`setupVulkan`)

`setupVulkan` runs its steps in a fixed order and every failure is a
C++ `throw` that unwinds out of the function immediately; no `catch`
inside the backend destroys anything on the way out.  The model below
threads the set of constructed objects through the step sequence, with
one failure-injection point per `throw` site in the call tree
(`SetupStep` names them in program order); a run either completes or
stops at the injected failure with that site's exact message, leaving
the objects constructed so far in place. -/

/-- The `throw` sites reachable from `setupVulkan`, in program order.
`checkValidationLayers` and `setupDebugMessengerStep` are on the
validation-enabled path; the swapchain collaborator's `init`/`update`
have no throw in this translation unit and so no failure point. -/
inductive SetupStep
  | checkValidationLayers
  | createInstanceStep
  | setupDebugMessengerStep
  | createSurfaceStep
  | enumerateDevicesStep
  | findSuitableDeviceStep
  | createLogicalDeviceStep
  | createCommandPoolStep
  | allocateCommandBuffersStep
  | depthCreateImageStep
  | depthFindMemoryTypeStep
  | depthAllocateMemoryStep
  | depthCreateImageViewStep
  | renderPassStep
  | pipelineCacheStep
  | framebufferStep
  | fenceStep
deriving DecidableEq, Repr

/-- The message each `throw std::runtime_error(...)` carries in the
source. -/
def stepMsg : SetupStep → String
  | .checkValidationLayers => "validation layers requested, but not available!"
  | .createInstanceStep => "failed to create instance!"
  | .setupDebugMessengerStep => "failed to set up debug messenger!"
  | .createSurfaceStep => "failed to create window surface!"
  | .enumerateDevicesStep => "failed to find GPUs with Vulkan support!"
  | .findSuitableDeviceStep => "failed to find a suitable GPU!"
  | .createLogicalDeviceStep => "failed to create logical device!"
  | .createCommandPoolStep => "failed to create command pool!"
  | .allocateCommandBuffersStep => "failed to allocate command buffers!"
  | .depthCreateImageStep => "failed to create depth images!"
  | .depthFindMemoryTypeStep => "failed to find suitable memory type!"
  | .depthAllocateMemoryStep => "failed to allocate depth image memory!"
  | .depthCreateImageViewStep => "failed to create depth image view!"
  | .renderPassStep => "failed to create render pass!"
  | .pipelineCacheStep => "failed to create pipeline cache!"
  | .framebufferStep => "failed to create framebuffer!"
  | .fenceStep => "failed to create synchronization objects for a frame!"

/-- Which objects `setupVulkan` has constructed so far: one flag per
member handle (or handle collection) it assigns. -/
structure SetupState where
  inst : Bool
  debugMessenger : Bool
  surface : Bool
  physicalDevice : Bool
  device : Bool
  swapchain : Bool
  commandPool : Bool
  commandBuffers : Bool
  depthImage : Bool
  depthMemory : Bool
  depthView : Bool
  renderPass : Bool
  pipelineCache : Bool
  framebuffers : Bool
  fences : Bool
deriving DecidableEq, Repr

/-- Before `setupVulkan`, nothing is constructed. -/
def initialSetupState : SetupState :=
  { inst := false, debugMessenger := false, surface := false,
    physicalDevice := false, device := false, swapchain := false,
    commandPool := false, commandBuffers := false, depthImage := false,
    depthMemory := false, depthView := false, renderPass := false,
    pipelineCache := false, framebuffers := false, fences := false }

/-- One entry per primitive action of the bring-up sequence: an optional
`throw` site guarding it (`none` for actions with no throw) and the
handle assignment it performs on success. -/
def setupSeq : List (Option SetupStep × (SetupState → SetupState)) :=
  [ (some .checkValidationLayers, id),
    (some .createInstanceStep, fun st => { st with inst := true }),
    (some .setupDebugMessengerStep, fun st => { st with debugMessenger := true }),
    (some .createSurfaceStep, fun st => { st with surface := true }),
    (some .enumerateDevicesStep, id),
    (some .findSuitableDeviceStep, fun st => { st with physicalDevice := true }),
    (some .createLogicalDeviceStep, fun st => { st with device := true }),
    (none, fun st => { st with swapchain := true }),
    (some .createCommandPoolStep, fun st => { st with commandPool := true }),
    (some .allocateCommandBuffersStep, fun st => { st with commandBuffers := true }),
    (some .depthCreateImageStep, fun st => { st with depthImage := true }),
    (some .depthFindMemoryTypeStep, id),
    (some .depthAllocateMemoryStep, fun st => { st with depthMemory := true }),
    (some .depthCreateImageViewStep, fun st => { st with depthView := true }),
    (some .renderPassStep, fun st => { st with renderPass := true }),
    (some .pipelineCacheStep, fun st => { st with pipelineCache := true }),
    (some .framebufferStep, fun st => { st with framebuffers := true }),
    (some .fenceStep, fun st => { st with fences := true }) ]

/-- Runs the bring-up sequence with failure injected at `env` (if any):
a guarded action whose site equals `env` throws its message with the
state exactly as accumulated — mirroring C++ stack unwinding with no
catch clause in the backend. -/
def runSetup (env : Option SetupStep) :
    List (Option SetupStep × (SetupState → SetupState)) → SetupState →
    SetupState × Except String Unit
  | [], st => (st, .ok ())
  | (guard, apply) :: rest, st =>
    match guard with
    | some s =>
      if env = some s then (st, .error (stepMsg s))
      else runSetup env rest (apply st)
    | none => runSetup env rest (apply st)

/-- `VulkanBackend::setupVulkan` under failure injection. -/
def setupVulkanModel (env : Option SetupStep) : SetupState × Except String Unit :=
  runSetup env setupSeq initialSetupState

/-- The objects still constructed when the throw at `s` unwinds out of
`setupVulkan`: everything the steps before `s` assigned, nothing less. -/
def retainedState : SetupStep → SetupState
  | .checkValidationLayers => initialSetupState
  | .createInstanceStep => initialSetupState
  | .setupDebugMessengerStep => { initialSetupState with inst := true }
  | .createSurfaceStep =>
      { initialSetupState with inst := true, debugMessenger := true }
  | .enumerateDevicesStep =>
      { initialSetupState with
        inst := true, debugMessenger := true,
        surface := true }
  | .findSuitableDeviceStep =>
      { initialSetupState with
        inst := true, debugMessenger := true,
        surface := true }
  | .createLogicalDeviceStep =>
      { initialSetupState with
        inst := true, debugMessenger := true,
        surface := true, physicalDevice := true }
  | .createCommandPoolStep =>
      { initialSetupState with
        inst := true, debugMessenger := true,
        surface := true, physicalDevice := true, device := true,
        swapchain := true }
  | .allocateCommandBuffersStep =>
      { initialSetupState with
        inst := true, debugMessenger := true,
        surface := true, physicalDevice := true, device := true,
        swapchain := true, commandPool := true }
  | .depthCreateImageStep =>
      { initialSetupState with
        inst := true, debugMessenger := true,
        surface := true, physicalDevice := true, device := true,
        swapchain := true, commandPool := true, commandBuffers := true }
  | .depthFindMemoryTypeStep =>
      { initialSetupState with
        inst := true, debugMessenger := true,
        surface := true, physicalDevice := true, device := true,
        swapchain := true, commandPool := true, commandBuffers := true,
        depthImage := true }
  | .depthAllocateMemoryStep =>
      { initialSetupState with
        inst := true, debugMessenger := true,
        surface := true, physicalDevice := true, device := true,
        swapchain := true, commandPool := true, commandBuffers := true,
        depthImage := true }
  | .depthCreateImageViewStep =>
      { initialSetupState with
        inst := true, debugMessenger := true,
        surface := true, physicalDevice := true, device := true,
        swapchain := true, commandPool := true, commandBuffers := true,
        depthImage := true, depthMemory := true }
  | .renderPassStep =>
      { initialSetupState with
        inst := true, debugMessenger := true,
        surface := true, physicalDevice := true, device := true,
        swapchain := true, commandPool := true, commandBuffers := true,
        depthImage := true, depthMemory := true, depthView := true }
  | .pipelineCacheStep =>
      { initialSetupState with
        inst := true, debugMessenger := true,
        surface := true, physicalDevice := true, device := true,
        swapchain := true, commandPool := true, commandBuffers := true,
        depthImage := true, depthMemory := true, depthView := true,
        renderPass := true }
  | .framebufferStep =>
      { initialSetupState with
        inst := true, debugMessenger := true,
        surface := true, physicalDevice := true, device := true,
        swapchain := true, commandPool := true, commandBuffers := true,
        depthImage := true, depthMemory := true, depthView := true,
        renderPass := true, pipelineCache := true }
  | .fenceStep =>
      { initialSetupState with
        inst := true, debugMessenger := true,
        surface := true, physicalDevice := true, device := true,
        swapchain := true, commandPool := true, commandBuffers := true,
        depthImage := true, depthMemory := true, depthView := true,
        renderPass := true, pipelineCache := true, framebuffers := true }

/-- **C3 (counterexample).** The claim fails: when no compatible
device-local memory type exists, `createDepthBuffer` throws *after*
`m_depthImage` has already been created, so the error unwinds out of
`setupVulkan` with the depth resource partially constructed — depth
image present, memory and view absent — and with the earlier instance,
surface and device still live: nothing is rolled back before the error
propagates. -/
theorem setup_failure_leaves_partial_depth_resource :
    (setupVulkanModel (some SetupStep.depthFindMemoryTypeStep)).2
        = .error "failed to find suitable memory type!" ∧
    (setupVulkanModel (some SetupStep.depthFindMemoryTypeStep)).1.depthImage = true ∧
    (setupVulkanModel (some SetupStep.depthFindMemoryTypeStep)).1.depthMemory = false ∧
    (setupVulkanModel (some SetupStep.depthFindMemoryTypeStep)).1.depthView = false ∧
    (setupVulkanModel (some SetupStep.depthFindMemoryTypeStep)).1.inst = true ∧
    (setupVulkanModel (some SetupStep.depthFindMemoryTypeStep)).1.surface = true ∧
    (setupVulkanModel (some SetupStep.depthFindMemoryTypeStep)).1.device = true :=
  ⟨rfl, rfl, rfl, rfl, rfl, rfl, rfl⟩

/-- **C3 (amended).** If any bring-up step fails, a descriptive
(non-empty) error propagates immediately, and the objects constructed by
the steps completed before the failing one all remain constructed —
nothing is rolled back before the error propagates (in particular a
depth-buffer failure can leave the depth resource partially built); a
run with no failing step completes every step. -/
theorem setup_failure_descriptive_error_no_rollback :
    (∀ s : SetupStep,
      setupVulkanModel (some s) = (retainedState s, .error (stepMsg s)) ∧
      stepMsg s ≠ "") ∧
    (setupVulkanModel none).2 = .ok () ∧
    (setupVulkanModel none).1 =
      { initialSetupState with
        inst := true, debugMessenger := true,
        surface := true, physicalDevice := true, device := true,
        swapchain := true, commandPool := true, commandBuffers := true,
        depthImage := true, depthMemory := true, depthView := true,
        renderPass := true, pipelineCache := true, framebuffers := true,
        fences := true } := by
  refine ⟨?_, rfl, rfl⟩
  intro s
  cases s <;> exact ⟨rfl, by decide⟩

end VkBackend
